import Mathlib

/-!
Verification development for the healthy_shifts scheduling engine.

The definitions below are a shallow embedding of the Python sources:

* models/shift.py             (shift templates and their field validators)
* models/member.py            (members and the email validator)
* models/shift_constraint.py  (the overlap analyzer)
* services/schedule_service.py (the two-phase CP-SAT scheduling model)

Machine integers are embedded as Nat or Int, uuid identifiers as Nat,
fallible code as Except, and the CP-SAT model as an executable
satisfaction predicate over explicit variable assignments.
-/

namespace HealthyShifts

/-- A shift template, from models/shift.py.  The days field stores the
weekdays on which the template is active; the source stores digit strings
and documents them as 0 = Sunday through 6 = Saturday. -/
structure Shift where
  id : Nat
  secondsSinceMidnight : Nat
  durationSeconds : Nat
  membersRequired : Nat
  days : List Nat
deriving Repr, DecidableEq

instance : Inhabited Shift := ⟨⟨0, 0, 0, 0, []⟩⟩

/-- A member, from models/member.py (only the field the scheduler reads). -/
structure Member where
  memberGroupId : Nat
deriving Repr, DecidableEq

instance : Inhabited Member := ⟨⟨0⟩⟩

/-- A pairwise shift constraint record, from models/shift_constraint.py. -/
structure SC where
  shiftId : Nat
  linkedShiftId : Nat
  withinLastShifts : Nat
deriving Repr, DecidableEq

/-! ## Overlap analyzer (models/shift_constraint.py) -/

/-- ShiftConstraint._shifts_overlap_on_day: two same-day time ranges
overlap iff the larger start is before the smaller end. -/
def shifts_overlap_on_day (start_a dur_a start_b dur_b : Nat) : Bool :=
  let end_a := start_a + dur_a
  let end_b := start_b + dur_b
  decide (max start_a start_b < min end_a end_b)

/-- ShiftConstraint._check_cross_day_overlap: returns
(crosses_midnight, overlaps_next_day_shift). -/
def check_cross_day_overlap (start_a dur_a start_b day_a day_b : Nat) :
    Bool × Bool :=
  let end_a := start_a + dur_a
  let crossesMidnight : Bool := decide (86400 < end_a)
  if crossesMidnight = false then (false, false)
  else
    let nextDay := (day_a + 1) % 7
    if day_b ≠ nextDay then (true, false)
    else
      let spilloverEnd := end_a - 86400
      (true, decide (start_b < spilloverEnd))

/-- Same-day branch of generate_from_overlaps: a pair is emitted (in both
directions, with k = 0) iff the two templates share a weekday and their
time ranges overlap. -/
def sameDayEmit (A B : Shift) : Bool :=
  (A.days.any fun d => B.days.contains d) &&
    shifts_overlap_on_day A.secondsSinceMidnight A.durationSeconds
      B.secondsSinceMidnight B.durationSeconds

/-- Cross-day branch of generate_from_overlaps for the direction A into B:
emitted iff some weekday pair (day_a, day_b) makes
check_cross_day_overlap report crosses and overlaps. -/
def crossDayEmit (A B : Shift) : Bool :=
  A.days.any fun da =>
    B.days.any fun db =>
      let r := check_cross_day_overlap A.secondsSinceMidnight
        A.durationSeconds B.secondsSinceMidnight da db
      r.1 && r.2

/-- The triples generate_from_overlaps adds to its detected set for one
unordered pair of templates (the body of the nested pair loop). -/
def pairConstraints (A B : Shift) : List (Nat × Nat × Nat) :=
  (if sameDayEmit A B then [(A.id, B.id, 0), (B.id, A.id, 0)] else []) ++
    (if crossDayEmit A B then [(A.id, B.id, 1)] else []) ++
      (if crossDayEmit B A then [(B.id, A.id, 1)] else [])

/-- The detected-constraints set of generate_from_overlaps: iterate over
all unordered pairs of catalog entries (each entry against the entries
after it) and collect the emitted triples.  The Python code stores them
in a set; here a list is used and claims are stated via membership. -/
def detectedConstraints : List Shift → List (Nat × Nat × Nat)
  | [] => []
  | a :: rest => rest.flatMap (pairConstraints a) ++ detectedConstraints rest

/-! ## Field validators (models/shift.py, models/member.py) -/

/-- Shift.validate_duration_seconds.  The input is None or an integer;
Python truthiness makes both None and 0 take the raising branch.  On
success the Python validator falls off the end and returns None. -/
def validate_duration_seconds : Option Int → Except String (Option Int)
  | none => Except.error "duration_seconds must be greater than 0"
  | some v =>
      if v = 0 ∨ v ≤ 0 then
        Except.error "duration_seconds must be greater than 0"
      else Except.ok none

/-- Shift.validate_members_required. -/
def validate_members_required : Option Int → Except String (Option Int)
  | none => Except.error "members_required must be greater than 0"
  | some v =>
      if v = 0 ∨ v ≤ 0 then
        Except.error "members_required must be greater than 0"
      else Except.ok none

/-- Shift.validate_seconds_since_midnight: raises when the value is None,
negative, or strictly greater than 86400. -/
def validate_seconds_since_midnight : Option Int → Except String (Option Int)
  | none => Except.error "seconds_since_midnight must be between 0 and 86400"
  | some v =>
      if v < 0 ∨ 86400 < v then
        Except.error "seconds_since_midnight must be between 0 and 86400"
      else Except.ok none

/-- Member.validate_email: raises when the address has no at sign,
otherwise returns the address itself. -/
def validate_email (address : String) : Except String String :=
  if address.contains '@' = false then
    Except.error "failed simple email validation"
  else Except.ok address

/-! ## Scheduling model (services/schedule_service.py)

schedule_shifts linearizes members, shifts and days into integer-keyed
dictionaries, builds a CP-SAT model over Boolean assignment variables
shift[(m, d, s)] and integer working_hours[(m, d, s)], solves a fairness
objective (Phase 1), then pins fairness and minimizes time-off-request
violations (Phase 2).  The model is embedded as an executable
satisfaction predicate over explicit assignments of all variables. -/

/-- The snapshot the scheduling call reads.  days_dict maps the day index
d to the date start + d; only its weekday matters here, so the snapshot
carries the Python weekday (Monday = 0 through Sunday = 6) of the window
start and day d has Python weekday (startWeekday + d) mod 7.
requestOverlaps is the precomputed set of (member, day, shift) triples
whose time-off requests collide with a shift occurrence. -/
structure Snapshot where
  members : List Member
  shifts : List Shift
  shiftConstraints : List SC
  groupShiftLinks : List (Nat × Nat)
  startWeekday : Nat
  numDays : Nat
  requestOverlaps : List (Nat × Nat × Nat)

/-- find_key_in_dict: scan the integer-keyed dictionary in key order and
return the first key whose object has the requested id; the source
raises ValueError when there is none, embedded as Option. -/
def findKeyInDict (objId : Nat) (shifts : List Shift) : Option Nat :=
  (List.range shifts.length).find? fun k => (shifts.getD k default).id = objId

/-- The shift template stored under key s. -/
def shiftAt (inst : Snapshot) (s : Nat) : Shift :=
  inst.shifts.getD s default

/-- The member stored under key m. -/
def memberAt (inst : Snapshot) (m : Nat) : Member :=
  inst.members.getD m default

/-- The Python weekday (Monday = 0) of day d, as computed by
days_dict[d].weekday() in the source. -/
def codeWeekday (inst : Snapshot) (d : Nat) : Nat :=
  (inst.startWeekday + d) % 7

/-- shift_eligibility: member m is eligible for shift key s iff a
MemberGroupShift row links the member group of m to the id of s. -/
def eligibleMembers (inst : Snapshot) (s : Nat) : List Nat :=
  (List.range inst.members.length).filter fun m =>
    inst.groupShiftLinks.any fun l =>
      l.1 = (memberAt inst m).memberGroupId ∧ l.2 = (shiftAt inst s).id

/-- A full assignment of the CP-SAT decision variables: the Booleans
shift[(m, d, s)], the integers working_hours[(m, d, s)], and the
per-shift fairness variables min_count, max_count and diff. -/
structure Assignment where
  x : Nat → Nat → Nat → Bool
  wh : Nat → Nat → Nat → Nat
  minC : Nat → Nat
  maxC : Nat → Nat
  diffC : Nat → Nat

/-- The 0/1 value of a Boolean variable inside linear constraints. -/
def b2i (b : Bool) : Nat := if b then 1 else 0

/-- Number of members assigned to (d, s): sum over m of shift[(m,d,s)]. -/
def assignedCount (inst : Snapshot) (σ : Assignment) (d s : Nat) : Nat :=
  ((List.range inst.members.length).map fun m => b2i (σ.x m d s)).sum

/-- member_shift_counts: total days member m works shift s. -/
def memberShiftCount (inst : Snapshot) (σ : Assignment) (m s : Nat) : Nat :=
  ((List.range inst.numDays).map fun d => b2i (σ.x m d s)).sum

/-- Domains of the working_hours integer variables (new_int_var 0 24). -/
def domSat (inst : Snapshot) (σ : Assignment) : Bool :=
  (List.range inst.members.length).all fun m =>
    (List.range inst.numDays).all fun d =>
      (List.range inst.shifts.length).all fun s =>
        decide (σ.wh m d s ≤ 24)

/-- The MAX_HOURS_IN_2_DAYS cap: for every d in range(num_days - 1) and
every member, the working hours of days d and d+1 sum to at most 32. -/
def capSat (inst : Snapshot) (σ : Assignment) : Bool :=
  (List.range (inst.numDays - 1)).all fun d =>
    (List.range inst.members.length).all fun m =>
      decide ((((List.range inst.shifts.length).map fun s =>
        σ.wh m d s + σ.wh m (d + 1) s).sum) ≤ 32)

/-- Coverage: when the Python weekday of day d is listed in the days of
shift s, exactly members_required members are assigned; otherwise none. -/
def coverageSat (inst : Snapshot) (σ : Assignment) : Bool :=
  (List.range inst.numDays).all fun d =>
    (List.range inst.shifts.length).all fun s =>
      if (shiftAt inst s).days.contains (codeWeekday inst d) then
        decide (assignedCount inst σ d s = (shiftAt inst s).membersRequired)
      else decide (assignedCount inst σ d s = 0)

/-- The constraints the pairwise loop adds for one member and one
ShiftConstraint record: for d in range(num_days - within), a same-day
exclusion when the resolved keys differ, and for i in range(within) the
offset exclusion between day d and day d + i + 1.  When a key lookup
fails the source raises instead of building a model, so no assignment
satisfies the model. -/
def pairwiseSatOne (inst : Snapshot) (σ : Assignment) (m : Nat) (c : SC) :
    Bool :=
  match findKeyInDict c.shiftId inst.shifts,
      findKeyInDict c.linkedShiftId inst.shifts with
  | some fk, some tk =>
      (List.range (inst.numDays - c.withinLastShifts)).all fun d =>
        ((fk == tk) ||
          decide (b2i (σ.x m d fk) + b2i (σ.x m d tk) ≤ 1)) &&
        (List.range c.withinLastShifts).all fun i =>
          decide (b2i (σ.x m d fk) + b2i (σ.x m (d + i + 1) tk) ≤ 1)
  | _, _ => false

/-- All pairwise temporal constraints, for every member. -/
def pairwiseSat (inst : Snapshot) (σ : Assignment) : Bool :=
  (List.range inst.members.length).all fun m =>
    inst.shiftConstraints.all fun c => pairwiseSatOne inst σ m c

/-- Eligibility: an ineligible member is never assigned; for an eligible
member the working-hours variable equals duration_seconds div 3600
whenever the assignment Boolean is true (only_enforce_if). -/
def eligSat (inst : Snapshot) (σ : Assignment) : Bool :=
  (List.range inst.members.length).all fun m =>
    (List.range inst.numDays).all fun d =>
      (List.range inst.shifts.length).all fun s =>
        if (eligibleMembers inst s).contains m then
          !(σ.x m d s) ||
            decide (σ.wh m d s = (shiftAt inst s).durationSeconds / 3600)
        else σ.x m d s = false

/-- Fairness auxiliaries for one shift: only built when more than one
member is eligible; min_count and max_count bound every eligible member
count, diff equals max_count minus min_count, and all three variables
live in [0, num_days]. -/
def fairnessSatOne (inst : Snapshot) (σ : Assignment) (s : Nat) : Bool :=
  if 1 < (eligibleMembers inst s).length then
    ((eligibleMembers inst s).all fun m =>
      decide (σ.minC s ≤ memberShiftCount inst σ m s) &&
        decide (memberShiftCount inst σ m s ≤ σ.maxC s)) &&
    decide ((σ.diffC s : Int) = (σ.maxC s : Int) - (σ.minC s : Int)) &&
    decide (σ.minC s ≤ inst.numDays) &&
    decide (σ.maxC s ≤ inst.numDays) &&
    decide (σ.diffC s ≤ inst.numDays)
  else true

/-- All fairness constraints. -/
def fairnessSat (inst : Snapshot) (σ : Assignment) : Bool :=
  (List.range inst.shifts.length).all fun s => fairnessSatOne inst σ s

/-- Satisfaction of the complete Phase-1 model. -/
def phase1Sat (inst : Snapshot) (σ : Assignment) : Bool :=
  domSat inst σ && capSat inst σ && coverageSat inst σ &&
    pairwiseSat inst σ && eligSat inst σ && fairnessSat inst σ

/-- fairness_penalties: the diff variable of every shift that has more
than one eligible member, collected in shift-key order. -/
def fairnessPenalties (inst : Snapshot) (σ : Assignment) : List Nat :=
  (List.range inst.shifts.length).flatMap fun s =>
    if 1 < (eligibleMembers inst s).length then [σ.diffC s] else []

/-- The Phase-1 objective: minimize sum(fairness_penalties). -/
def phase1Objective (inst : Snapshot) (σ : Assignment) : Nat :=
  (fairnessPenalties inst σ).sum

/-! ## Phase 2 (the two-phase driver) -/

/-- A reference to a model variable, used to record solver hints. -/
inductive VarRef where
  | x (m d s : Nat)
  | diff (s : Nat)
deriving Repr, DecidableEq

/-- The shift keys for which fairness diff variables exist, in order. -/
def fairnessShifts (inst : Snapshot) : List Nat :=
  (List.range inst.shifts.length).filter fun s =>
    1 < (eligibleMembers inst s).length

/-- The hints the driver adds after Phase 1 succeeds: every assignment
Boolean at its Phase-1 value, then every fairness diff at its Phase-1
value (model.add_hint calls, in loop order). -/
def phase2Hints (inst : Snapshot) (sol : Assignment) : List (VarRef × Nat) :=
  ((List.range inst.members.length).flatMap fun m =>
    (List.range inst.numDays).flatMap fun d =>
      (List.range inst.shifts.length).map fun s =>
        (VarRef.x m d s, b2i (sol.x m d s))) ++
  (fairnessShifts inst).map fun s => (VarRef.diff s, sol.diffC s)

/-- Satisfaction of the Phase-2 model: the whole Phase-1 model plus the
locked fairness bound sum(fairness_penalties) less or equal fstar, where
fstar is the rounded Phase-1 objective value. -/
def phase2Sat (inst : Snapshot) (fstar : Nat) (σ : Assignment) : Bool :=
  phase1Sat inst σ && decide (phase1Objective inst σ ≤ fstar)

/-- The Phase-2 objective: each request-overlap triple gets a violation
Boolean equated to its assignment variable, and their sum is minimized,
so the objective is the sum of the assignment Booleans over the
request-overlap set. -/
def phase2Objective (inst : Snapshot) (σ : Assignment) : Nat :=
  (inst.requestOverlaps.map fun t => b2i (σ.x t.1 t.2.1 t.2.2)).sum

/-! ## Construction order of the model (for the eager-validation claim)

schedule_shifts builds the model strictly in this order: all Boolean and
integer variables, then the two-day working-hour caps, then the coverage
constraints, and only then the pairwise loop, whose find_key_in_dict
calls raise ValueError on a dangling ShiftConstraint reference.  The
trace below records how much of the model exists when the call returns
or raises. -/

/-- Counts of variables and constraints created so far. -/
structure BuildState where
  boolVarCount : Nat
  intVarCount : Nat
  capConstraintCount : Nat
  coverageConstraintCount : Nat
  pairwiseConstraintCount : Nat
  eligConstraintCount : Nat
  fairnessDiffCount : Nat
deriving Repr, DecidableEq

/-- The pairwise loop body for one member: process the ShiftConstraint
records in order, counting added constraints, and stop with the
ValueError message of find_key_in_dict at the first dangling reference. -/
def pairwiseBuildOne (inst : Snapshot) (acc : Nat) :
    List SC → Nat × Option String
  | [] => (acc, none)
  | c :: rest =>
      match findKeyInDict c.shiftId inst.shifts,
          findKeyInDict c.linkedShiftId inst.shifts with
      | some fk, some tk =>
          let perDay := (if fk ≠ tk then 1 else 0) + c.withinLastShifts
          pairwiseBuildOne inst
            (acc + (inst.numDays - c.withinLastShifts) * perDay) rest
      | _, _ => (acc, some "No such object")

/-- The pairwise loop over members (the member index is not used by the
body, so only the number of remaining members matters). -/
def pairwiseBuildLoop (inst : Snapshot) : Nat → Nat → Nat × Option String
  | 0, acc => (acc, none)
  | Nat.succ k, acc =>
      match pairwiseBuildOne inst acc inst.shiftConstraints with
      | (acc2, none) => pairwiseBuildLoop inst k acc2
      | (acc2, some e) => (acc2, some e)

/-- The model-construction trace of schedule_shifts up to (and through)
the pairwise loop: variables, caps and coverage are created first; when
a pairwise lookup raises, construction stops there and the later
eligibility and fairness stages are never reached. -/
def buildModelTrace (inst : Snapshot) : BuildState × Option String :=
  let M := inst.members.length
  let D := inst.numDays
  let S := inst.shifts.length
  match pairwiseBuildLoop inst M 0 with
  | (pc, none) =>
      ({ boolVarCount := M * D * S, intVarCount := M * D * S
         capConstraintCount := (D - 1) * M
         coverageConstraintCount := D * S
         pairwiseConstraintCount := pc
         eligConstraintCount := M * D * S
         fairnessDiffCount := (fairnessShifts inst).length }, none)
  | (pc, some e) =>
      ({ boolVarCount := M * D * S, intVarCount := M * D * S
         capConstraintCount := (D - 1) * M
         coverageConstraintCount := D * S
         pairwiseConstraintCount := pc
         eligConstraintCount := 0
         fairnessDiffCount := 0 }, some e)

/-! ## Claim-side definition for the weekday encoding

The days field of a shift is documented in models/shift.py as using the
encoding 0 = Sunday through 6 = Saturday.  The weekday of day d of the
window under that documented encoding is the calendar weekday of the
date start + d, i.e. the Python weekday shifted by one. -/

/-- The weekday of day d under the documented 0 = Sunday encoding (the
Python weekday of the same date is Monday = 0, so Sunday-origin is the
Python value plus one, mod 7). -/
def sundayWeekday (inst : Snapshot) (d : Nat) : Nat :=
  (inst.startWeekday + d + 1) % 7

/-! ## Concrete instances -/

/-- Night template N of the spec seed case: starts 23:00, lasts 3 hours,
active on Monday (weekday 1 under the documented 0 = Sunday encoding). -/
def shiftN : Shift := ⟨0, 82800, 10800, 1, [1]⟩

/-- Morning template M of the spec seed case: starts 01:00, lasts 2
hours, active on Tuesday (weekday 2). -/
def shiftM : Shift := ⟨1, 3600, 7200, 1, [2]⟩

/-- A template that crosses midnight and is active on two consecutive
weekdays, so its own spillover meets its own next-day occurrence. -/
def shiftSelf : Shift := ⟨0, 82800, 10800, 1, [1, 2]⟩

/-- Template that both overlaps shiftWide on their shared Monday and
spills past midnight into the Tuesday occurrence of shiftWide:
22:00 for 4 hours on Monday. -/
def shiftLate : Shift := ⟨0, 79200, 14400, 1, [1]⟩

/-- Template active Monday and Tuesday, 01:00 for a long stretch, so it
overlaps shiftLate on Monday and starts before the shiftLate spillover
on Tuesday. -/
def shiftWide : Shift := ⟨1, 3600, 80000, 1, [1, 2]⟩

/-- One member, two shifts both active on the single scheduled day, and
a pairwise constraint with within_last_shifts = 1 linking them.  The
pairwise loop range num_days - within is empty, so the model never
forbids the member from holding both shifts on day 0 even though
coverage forces exactly that. -/
def instC1 : Snapshot :=
  { members := [⟨0⟩]
    shifts := [⟨0, 0, 3600, 1, [5]⟩, ⟨1, 7200, 3600, 1, [5]⟩]
    shiftConstraints := [⟨0, 1, 1⟩]
    groupShiftLinks := [(0, 0), (0, 1)]
    startWeekday := 5
    numDays := 1
    requestOverlaps := [] }

/-- The unique assignment satisfying the instC1 model: the single member
holds both shifts on day 0. -/
def sigmaC1 : Assignment :=
  { x := fun _ _ _ => true
    wh := fun _ _ _ => 1
    minC := fun _ => 0
    maxC := fun _ => 0
    diffC := fun _ => 0 }

/-- Two members and two single-day shifts on consecutive days linked by
a within_last_shifts = 1 constraint: the pairwise constraints are active
for day 0. -/
def instC1W : Snapshot :=
  { members := [⟨0⟩, ⟨0⟩]
    shifts := [⟨0, 0, 3600, 1, [5]⟩, ⟨1, 7200, 3600, 1, [6]⟩]
    shiftConstraints := [⟨0, 1, 1⟩]
    groupShiftLinks := [(0, 0), (0, 1)]
    startWeekday := 5
    numDays := 2
    requestOverlaps := [] }

/-- A satisfying assignment for instC1W: member 0 takes shift 0 on day
0, member 1 takes shift 1 on day 1. -/
def sigmaC1W : Assignment :=
  { x := fun m d s => (m == 0 && d == 0 && s == 0) ||
      (m == 1 && d == 1 && s == 1)
    wh := fun m d s =>
      if (m == 0 && d == 0 && s == 0) || (m == 1 && d == 1 && s == 1)
      then 1 else 0
    minC := fun _ => 0
    maxC := fun _ => 1
    diffC := fun _ => 1 }

/-- A window whose single day is a Saturday (Python weekday 5), and one
shift whose days field holds 6, which the field documentation reads as
Saturday.  The coverage loop compares the Python weekday 5 against the
stored 6, so it forces zero assignments on the Saturday. -/
def instC2 : Snapshot :=
  { members := [⟨0⟩]
    shifts := [⟨0, 32400, 3600, 1, [6]⟩]
    shiftConstraints := []
    groupShiftLinks := [(0, 0)]
    startWeekday := 5
    numDays := 1
    requestOverlaps := [] }

/-- The empty assignment: nobody works, all auxiliaries zero. -/
def sigmaZero : Assignment :=
  { x := fun _ _ _ => false
    wh := fun _ _ _ => 0
    minC := fun _ => 0
    maxC := fun _ => 0
    diffC := fun _ => 0 }

/-- A snapshot whose single ShiftConstraint references template id 5,
which is not in the catalog (the catalog only has id 0). -/
def instC6 : Snapshot :=
  { members := [⟨0⟩]
    shifts := [⟨0, 0, 3600, 1, [5]⟩]
    shiftConstraints := [⟨5, 0, 1⟩]
    groupShiftLinks := [(0, 0)]
    startWeekday := 5
    numDays := 1
    requestOverlaps := [] }

/-- Two members of one group, one shift requiring one member on the
single scheduled day, and a request overlap for member 0 on that
occurrence. -/
def instW : Snapshot :=
  { members := [⟨0⟩, ⟨0⟩]
    shifts := [⟨0, 0, 3600, 1, [5]⟩]
    shiftConstraints := []
    groupShiftLinks := [(0, 0)]
    startWeekday := 5
    numDays := 1
    requestOverlaps := [(0, 0, 0)] }

/-- A satisfying assignment for instW: member 0 works the single
occurrence, so the fairness spread is 1. -/
def sigmaW : Assignment :=
  { x := fun m _ _ => m == 0
    wh := fun m _ _ => if m == 0 then 1 else 0
    minC := fun _ => 0
    maxC := fun _ => 1
    diffC := fun _ => 1 }

/-! ## Lemmas about the overlap analyzer -/

/-- Membership in the detected set is membership in the emissions of
some ordered pair of catalog positions (as a length-two sublist). -/
lemma mem_detectedConstraints {t : Nat × Nat × Nat} {l : List Shift} :
    t ∈ detectedConstraints l ↔
      ∃ A B, [A, B].Sublist l ∧ t ∈ pairConstraints A B := by
  induction l with
  | nil => simp [detectedConstraints]
  | cons a rest ih =>
      simp only [detectedConstraints, List.mem_append, List.mem_flatMap, ih]
      constructor
      · rintro (⟨B, hB, ht⟩ | ⟨A, B, hsub, ht⟩)
        · exact ⟨a, B, List.cons_sublist_cons.mpr (List.singleton_sublist.mpr hB), ht⟩
        · exact ⟨A, B, hsub.cons a, ht⟩
      · rintro ⟨A, B, hsub, ht⟩
        rcases List.sublist_cons_iff.mp hsub with h | ⟨r, hr, hsub'⟩
        · exact Or.inr ⟨A, B, h, ht⟩
        · cases hr
          exact Or.inl ⟨B, List.singleton_sublist.mp hsub', ht⟩

/-- Two distinct members of a list occur, in one order or the other, as
a length-two sublist. -/
lemma sublist_pair_of_mem {α : Type} {A B : α} {l : List α}
    (hA : A ∈ l) (hB : B ∈ l) (hne : A ≠ B) :
    [A, B].Sublist l ∨ [B, A].Sublist l := by
  induction l with
  | nil => cases hA
  | cons c rest ih =>
      rcases List.mem_cons.mp hA with rfl | hA'
      · rcases List.mem_cons.mp hB with rfl | hB'
        · exact absurd rfl hne
        · exact Or.inl
            (List.cons_sublist_cons.mpr (List.singleton_sublist.mpr hB'))
      · rcases List.mem_cons.mp hB with rfl | hB'
        · exact Or.inr
            (List.cons_sublist_cons.mpr (List.singleton_sublist.mpr hA'))
        · exact (ih hA' hB').imp (·.cons c) (·.cons c)

/-- check_cross_day_overlap reports both crosses and overlaps exactly
when the first shift spills past midnight, the second weekday is the
successor of the first, and the second start is under the spillover. -/
lemma check_cross_day_overlap_spec (sa da sb wa wb : Nat) :
    ((check_cross_day_overlap sa da sb wa wb).1 &&
      (check_cross_day_overlap sa da sb wa wb).2) = true ↔
      (86400 < sa + da ∧ wb = (wa + 1) % 7 ∧ sb < sa + da - 86400) := by
  unfold check_cross_day_overlap
  by_cases h1 : 86400 < sa + da
  · by_cases h2 : wb = (wa + 1) % 7
    · simp [h1, h2]
    · simp [h1, h2]
  · simp [h1]

/-- The cross-day emission test, characterized: the first template must
spill past midnight, some weekday of the first must be followed by a
weekday of the second, and the second must start before the spillover
runs out. -/
lemma crossDayEmit_iff {A B : Shift} :
    crossDayEmit A B = true ↔
      86400 < A.secondsSinceMidnight + A.durationSeconds ∧
      (∃ w ∈ A.days, ((w + 1) % 7) ∈ B.days) ∧
      B.secondsSinceMidnight <
        A.secondsSinceMidnight + A.durationSeconds - 86400 := by
  simp only [crossDayEmit, List.any_eq_true, check_cross_day_overlap_spec]
  constructor
  · rintro ⟨da, hda, db, hdb, h1, rfl, h3⟩
    exact ⟨h1, ⟨da, hda, hdb⟩, h3⟩
  · rintro ⟨h1, ⟨w, hw, hnext⟩, h3⟩
    exact ⟨w, hw, (w + 1) % 7, hnext, h1, rfl, h3⟩

/-- Membership of a k = 1 triple in the emissions of one ordered pair:
such a triple only arises from the two cross-day branches. -/
lemma mem_pairConstraints_one {X Y : Shift} {p q : Nat}
    (h : (p, q, 1) ∈ pairConstraints X Y) :
    (p = X.id ∧ q = Y.id ∧ crossDayEmit X Y = true) ∨
    (p = Y.id ∧ q = X.id ∧ crossDayEmit Y X = true) := by
  simp only [pairConstraints, List.mem_append] at h
  rcases h with (h | h) | h
  · split at h <;> simp_all
  · split at h <;> simp_all
  · split at h <;> simp_all

/-- Claim C5 condition, as stated in the spec, for an ordered pair. -/
def spillsInto (A B : Shift) : Prop :=
  86400 < A.secondsSinceMidnight + A.durationSeconds ∧
  (∃ w ∈ A.days, ((w + 1) % 7) ∈ B.days) ∧
  B.secondsSinceMidnight < A.secondsSinceMidnight + A.durationSeconds - 86400

/-! ## Theorems for the claims about the overlap analyzer -/

/-- Claim C5: for every pair of distinct templates A and B of a catalog
(with distinct template ids), the analyzer emits (A, B, 1) iff A spills
past midnight, some weekday of A has its successor among the weekdays of
B, and B starts strictly before the spillover; and on the night-spillover
seed catalog of templates N and M the analyzer emits exactly (N, M, 1). -/
theorem c5_cross_day_analyzer :
    (∀ (catalog : List Shift), (catalog.map Shift.id).Nodup →
      ∀ A ∈ catalog, ∀ B ∈ catalog, A.id ≠ B.id →
        ((A.id, B.id, 1) ∈ detectedConstraints catalog ↔ spillsInto A B)) ∧
    detectedConstraints [shiftN, shiftM] = [(0, 1, 1)] := by
  constructor
  · intro catalog hnodup A hA B hB hne
    constructor
    · intro hmem
      rcases mem_detectedConstraints.mp hmem with ⟨X, Y, hsub, ht⟩
      have hX : X ∈ catalog := hsub.subset (by simp)
      have hY : Y ∈ catalog := hsub.subset (by simp)
      rcases mem_pairConstraints_one ht with ⟨hp, hq, hcross⟩ |
        ⟨hp, hq, hcross⟩
      · have hXA : X = A := List.inj_on_of_nodup_map hnodup hX hA hp.symm
        have hYB : Y = B := List.inj_on_of_nodup_map hnodup hY hB hq.symm
        subst hXA; subst hYB
        exact crossDayEmit_iff.mp hcross
      · have hYA : Y = A := List.inj_on_of_nodup_map hnodup hY hA hp.symm
        have hXB : X = B := List.inj_on_of_nodup_map hnodup hX hB hq.symm
        subst hYA; subst hXB
        exact crossDayEmit_iff.mp hcross
    · intro hcond
      have hAB : A ≠ B := fun h => hne (h ▸ rfl)
      have hemit : crossDayEmit A B = true := crossDayEmit_iff.mpr hcond
      rcases sublist_pair_of_mem hA hB hAB with hsub | hsub
      · refine mem_detectedConstraints.mpr ⟨A, B, hsub, ?_⟩
        simp [pairConstraints, hemit]
      · refine mem_detectedConstraints.mpr ⟨B, A, hsub, ?_⟩
        simp [pairConstraints, hemit]
  · decide

/-- Claim C5 witness: the general direction applied to the seed catalog
of templates N and M. -/
theorem c5_cross_day_analyzer_witness :
    ([shiftN, shiftM].map Shift.id).Nodup ∧
    ((shiftN.id, shiftM.id, 1) ∈ detectedConstraints [shiftN, shiftM] ↔
      spillsInto shiftN shiftM) := by
  refine ⟨by decide, ?_⟩
  exact c5_cross_day_analyzer.1 [shiftN, shiftM] (by decide) shiftN
    (by decide) shiftM (by decide) (by decide)

/-- Claim C8: with distinct template ids, every detected triple relates
two distinct templates; in particular a template that crosses midnight
and is active on consecutive weekdays (shiftSelf) generates no
constraint at all against itself. -/
theorem c8_no_self_constraint :
    (∀ (catalog : List Shift), (catalog.map Shift.id).Nodup →
      ∀ t ∈ detectedConstraints catalog, t.1 ≠ t.2.1) ∧
    detectedConstraints [shiftSelf] = [] := by
  constructor
  · intro catalog hnodup t ht
    rcases mem_detectedConstraints.mp ht with ⟨X, Y, hsub, hpair⟩
    have hids : [X.id, Y.id].Sublist (catalog.map Shift.id) := by
      have := hsub.map Shift.id
      simpa using this
    have hnd : X.id ≠ Y.id := by
      have h2 : ([X.id, Y.id] : List Nat).Nodup := hnodup.sublist hids
      intro he
      simp [List.nodup_cons, he] at h2
    have hnd' : Y.id ≠ X.id := fun he => hnd he.symm
    simp only [pairConstraints, List.mem_append] at hpair
    rcases hpair with (h | h) | h
    · split at h
      · rcases List.mem_cons.mp h with rfl | h'
        · exact hnd
        · rcases List.mem_cons.mp h' with rfl | h''
          · exact hnd'
          · cases h''
      · cases h
    · split at h
      · rcases List.mem_cons.mp h with rfl | h'
        · exact hnd
        · cases h'
      · cases h
    · split at h
      · rcases List.mem_cons.mp h with rfl | h'
        · exact hnd'
        · cases h'
      · cases h
  · decide

/-- Claim C8 witness: the general direction applied to the two-template
night-spillover catalog. -/
theorem c8_no_self_constraint_witness :
    ([shiftN, shiftM].map Shift.id).Nodup ∧
    ∀ t ∈ detectedConstraints [shiftN, shiftM], t.1 ≠ t.2.1 :=
  ⟨by decide, c8_no_self_constraint.1 [shiftN, shiftM] (by decide)⟩

/-- Claim C9: on the catalog of shiftLate and shiftWide the detected set
holds both (0, 1, 0) and (0, 1, 1) for the same ordered pair, so the
detected set is not a map from ordered pairs to a single k. -/
theorem c9_pair_with_two_k :
    (0, 1, 0) ∈ detectedConstraints [shiftLate, shiftWide] ∧
    (0, 1, 1) ∈ detectedConstraints [shiftLate, shiftWide] := by
  decide

/-! ## Theorems for the claims about the field validators -/

/-- Claim C7, counterexample: the boundary value 86400 is accepted by
validate_seconds_since_midnight, contradicting the claim that every
value outside the half-open interval [0, 86400) is rejected. -/
theorem c7_counterexample :
    validate_seconds_since_midnight (some 86400) = Except.ok none := rfl

/-- Claim C7, amended: validating the start-of-day value fails exactly
when the value is missing or lies outside the closed interval
[0, 86400]; in particular the boundary value 86400 is accepted. -/
theorem c7_amended :
    (∀ v : Int, validate_seconds_since_midnight (some v) = Except.ok none ↔
      0 ≤ v ∧ v ≤ 86400) ∧
    validate_seconds_since_midnight none =
      Except.error "seconds_since_midnight must be between 0 and 86400" := by
  refine ⟨fun v => ?_, rfl⟩
  by_cases h : v < 0 ∨ 86400 < v
  · simp only [validate_seconds_since_midnight, if_pos h]
    constructor
    · intro he; cases he
    · intro hr; omega
  · simp only [validate_seconds_since_midnight, if_neg h]
    constructor
    · intro _; omega
    · intro _; trivial

/-- Claim C10: the duration, required-count and start-seconds validators
raise exactly on a missing or out-of-range input (non-positive duration
or required count, negative start seconds or start seconds above 86400)
and return None on valid input, while the email validator returns the
address when it holds an at sign. -/
theorem c10_validators :
    (∀ v : Int, validate_duration_seconds (some v) =
      if v ≤ 0 then Except.error "duration_seconds must be greater than 0"
      else Except.ok none) ∧
    validate_duration_seconds none =
      Except.error "duration_seconds must be greater than 0" ∧
    (∀ v : Int, validate_members_required (some v) =
      if v ≤ 0 then Except.error "members_required must be greater than 0"
      else Except.ok none) ∧
    validate_members_required none =
      Except.error "members_required must be greater than 0" ∧
    (∀ v : Int, validate_seconds_since_midnight (some v) =
      if v < 0 ∨ 86400 < v then
        Except.error "seconds_since_midnight must be between 0 and 86400"
      else Except.ok none) ∧
    validate_seconds_since_midnight none =
      Except.error "seconds_since_midnight must be between 0 and 86400" ∧
    (∀ a : String, validate_email a =
      if a.contains '@' then Except.ok a
      else Except.error "failed simple email validation") := by
  have hd : ∀ v : Int, (v = 0 ∨ v ≤ 0) ↔ v ≤ 0 := fun v => by omega
  refine ⟨fun v => ?_, rfl, fun v => ?_, rfl, fun v => rfl, rfl, fun a => ?_⟩
  · simp only [validate_duration_seconds, hd]
  · simp only [validate_members_required, hd]
  · by_cases h : a.contains '@'
    · simp [validate_email, h]
    · simp [validate_email, h]

/-! ## Lemmas about the scheduling model -/

/-- Split Phase-1 satisfaction into its six constraint groups. -/
lemma phase1Sat_parts {inst : Snapshot} {σ : Assignment}
    (h : phase1Sat inst σ = true) :
    domSat inst σ = true ∧ capSat inst σ = true ∧
    coverageSat inst σ = true ∧ pairwiseSat inst σ = true ∧
    eligSat inst σ = true ∧ fairnessSat inst σ = true := by
  simp only [phase1Sat, Bool.and_eq_true] at h
  tauto

/-- A flatMap emitting a singleton under a condition is the map over the
filtered list. -/
lemma flatMap_ite_singleton {α β : Type} (l : List α) (p : α → Prop)
    [DecidablePred p] (f : α → β) :
    (l.flatMap fun a => if p a then [f a] else []) =
      ((l.filter fun a => p a).map f) := by
  induction l with
  | nil => rfl
  | cons a t ih =>
      by_cases hp : p a <;>
        simp [List.flatMap_cons, List.filter_cons, hp, ih]

/-- Summing the 0/1 values of a Boolean predicate counts the elements
satisfying it. -/
lemma sum_map_b2i {α : Type} (l : List α) (p : α → Bool) :
    (l.map fun a => b2i (p a)).sum = (l.filter p).length := by
  induction l with
  | nil => rfl
  | cons a t ih =>
      simp only [b2i] at ih ⊢
      by_cases hp : p a = true <;>
        simp [hp, ih, List.filter_cons, Nat.add_comm]

/-! ## Theorems for the claims about the scheduling model -/

/-- Claim C1, counterexample: on instC1 (one member, two shifts both
required on the single day, linked by a within_last_shifts = 1
constraint) the model is satisfied by an outcome that assigns the member
to both linked shifts on day 0, because the pairwise loop only runs for
d in range(num_days - within), which is empty here. -/
theorem c1_counterexample :
    ¬ (∀ σ : Assignment, phase1Sat instC1 σ = true →
      ∀ m, m < instC1.members.length →
      ∀ c ∈ instC1.shiftConstraints,
      ∀ fk tk, findKeyInDict c.shiftId instC1.shifts = some fk →
        findKeyInDict c.linkedShiftId instC1.shifts = some tk →
      ∀ d i, d < instC1.numDays → d + i < instC1.numDays →
        i ≤ c.withinLastShifts → (fk = tk → 1 ≤ i) →
        ¬ (σ.x m d fk = true ∧ σ.x m (d + i) tk = true)) := by
  intro h
  exact h sigmaC1 (by decide) 0 (by decide) ⟨0, 1, 1⟩ (by decide) 0 1
    (by decide) (by decide) 0 0 (by decide) (by decide) (by decide)
    (by decide) ⟨rfl, rfl⟩

/-- Claim C1, amended: in every outcome satisfying the model, for every
person m, every pairwise constraint (a, b, k) resolved to shift keys,
every day index d in [0, D - k) and every offset i with 0 <= i <= k
(with i >= 1 required when the keys coincide), the assignments (m, d, a)
and (m, d + i, b) do not both hold. -/
theorem c1_amended (inst : Snapshot) (σ : Assignment)
    (h : phase1Sat inst σ = true) (m : Nat) (hm : m < inst.members.length)
    (c : SC) (hc : c ∈ inst.shiftConstraints) (fk tk : Nat)
    (hfk : findKeyInDict c.shiftId inst.shifts = some fk)
    (htk : findKeyInDict c.linkedShiftId inst.shifts = some tk)
    (d i : Nat) (hd : d < inst.numDays - c.withinLastShifts)
    (hi : i ≤ c.withinLastShifts) (hself : fk = tk → 1 ≤ i) :
    ¬ (σ.x m d fk = true ∧ σ.x m (d + i) tk = true) := by
  rintro ⟨hx1, hx2⟩
  have hp := (phase1Sat_parts h).2.2.2.1
  rw [pairwiseSat, List.all_eq_true] at hp
  have hm' := hp m (List.mem_range.mpr hm)
  rw [List.all_eq_true] at hm'
  have hone := hm' c hc
  rw [pairwiseSatOne, hfk, htk] at hone
  rw [List.all_eq_true] at hone
  have hday := hone d (List.mem_range.mpr hd)
  rw [Bool.and_eq_true] at hday
  rcases Nat.eq_zero_or_pos i with rfl | hipos
  · have hne : fk ≠ tk := fun he => by omega
    have h1 := hday.1
    rw [Bool.or_eq_true] at h1
    rcases h1 with h1 | h1
    · exact hne (by simpa using h1)
    · rw [decide_eq_true_eq] at h1
      rw [Nat.add_zero] at hx2
      simp [b2i, hx1, hx2] at h1
  · have h2 := hday.2
    rw [List.all_eq_true] at h2
    obtain ⟨j, rfl⟩ : ∃ j, i = j + 1 := ⟨i - 1, by omega⟩
    have hj := h2 j (List.mem_range.mpr (by omega))
    rw [decide_eq_true_eq] at hj
    have : d + (j + 1) = d + j + 1 := by omega
    rw [this] at hx2
    simp [b2i, hx1, hx2] at hj

/-- Claim C1 witness: the amended statement applied to instC1W, whose
pairwise constraints are active for day 0. -/
theorem c1_amended_witness :
    phase1Sat instC1W sigmaC1W = true ∧
    (⟨0, 1, 1⟩ : SC) ∈ instC1W.shiftConstraints ∧
    ¬ (sigmaC1W.x 0 0 0 = true ∧ sigmaC1W.x 0 (0 + 1) 1 = true) := by
  refine ⟨by decide, by decide, ?_⟩
  exact c1_amended instC1W sigmaC1W (by decide) 0 (by decide) ⟨0, 1, 1⟩
    (by decide) 0 1 (by decide) (by decide) 0 1 (by decide) (by decide)
    (by decide)

/-- Claim C2: the code evaluated at the failing input.  Day 0 of instC2
is a Saturday, i.e. weekday 6 under the documented 0 = Sunday encoding,
and 6 is in the days field of the only shift, whose required count is 1;
yet the empty outcome satisfies the built model with zero members
assigned to that occurrence, because the coverage loop compares the
Python Monday-origin weekday 5 against the stored 6. -/
theorem c2_weekday_encoding_bug :
    sundayWeekday instC2 0 = 6 ∧
    (shiftAt instC2 0).days.contains 6 = true ∧
    (shiftAt instC2 0).membersRequired = 1 ∧
    codeWeekday instC2 0 = 5 ∧
    phase1Sat instC2 sigmaZero = true ∧
    assignedCount instC2 sigmaZero 0 0 = 0 := by
  exact ⟨by decide, by decide, by decide, by decide, by decide, by decide⟩

/-- Claim C3: after Phase 1 yields the solution sol, the driver hints
every assignment variable and every fairness diff at its Phase-1 value,
the Phase-2 model adds the hard bound by the Phase-1 objective value,
its objective counts the assigned triples of the request-overlap set,
and consequently any Phase-2 solution has fairness sum at most the
Phase-1 optimum. -/
theorem c3_phase2_driver (inst : Snapshot) (sol σ : Assignment)
    (h : phase2Sat inst (phase1Objective inst sol) σ = true) :
    (∀ m, m < inst.members.length → ∀ d, d < inst.numDays →
      ∀ s, s < inst.shifts.length →
        (VarRef.x m d s, b2i (sol.x m d s)) ∈ phase2Hints inst sol) ∧
    (∀ s ∈ fairnessShifts inst,
      (VarRef.diff s, sol.diffC s) ∈ phase2Hints inst sol) ∧
    phase2Objective inst σ =
      (inst.requestOverlaps.filter fun t => σ.x t.1 t.2.1 t.2.2).length ∧
    phase1Objective inst σ ≤ phase1Objective inst sol := by
  refine ⟨?_, ?_, ?_, ?_⟩
  · intro m hm d hd s hs
    refine List.mem_append_left _ ?_
    rw [List.mem_flatMap]
    refine ⟨m, List.mem_range.mpr hm, ?_⟩
    rw [List.mem_flatMap]
    refine ⟨d, List.mem_range.mpr hd, ?_⟩
    exact List.mem_map.mpr ⟨s, List.mem_range.mpr hs, rfl⟩
  · intro s hs
    exact List.mem_append_right _ (List.mem_map.mpr ⟨s, hs, rfl⟩)
  · exact sum_map_b2i inst.requestOverlaps _
  · simp only [phase2Sat, Bool.and_eq_true, decide_eq_true_eq] at h
    exact h.2

/-- Claim C3 witness: the driver theorem applied to instW with the
Phase-1 solution sigmaW taken for both roles. -/
theorem c3_phase2_driver_witness :
    phase2Sat instW (phase1Objective instW sigmaW) sigmaW = true ∧
    (VarRef.x 0 0 0, b2i (sigmaW.x 0 0 0)) ∈ phase2Hints instW sigmaW ∧
    phase1Objective instW sigmaW ≤ phase1Objective instW sigmaW := by
  have h : phase2Sat instW (phase1Objective instW sigmaW) sigmaW = true :=
    by decide
  exact ⟨h,
    (c3_phase2_driver instW sigmaW sigmaW h).1 0 (by decide) 0 (by decide)
      0 (by decide),
    (c3_phase2_driver instW sigmaW sigmaW h).2.2.2⟩

/-- Claim C4: the Phase-1 objective is the sum of the diff variables of
exactly the templates with more than one eligible person, and in any
satisfying outcome each such template has its min and max variables in
[0, D] bounding every eligible member count, with diff equal to their
difference; templates with at most one eligible person contribute
nothing. -/
theorem c4_fairness_objective (inst : Snapshot) (σ : Assignment)
    (h : phase1Sat inst σ = true) :
    phase1Objective inst σ =
      (((List.range inst.shifts.length).filter fun s =>
        1 < (eligibleMembers inst s).length).map σ.diffC).sum ∧
    ∀ s, s < inst.shifts.length → 1 < (eligibleMembers inst s).length →
      σ.minC s ≤ inst.numDays ∧ σ.maxC s ≤ inst.numDays ∧
      σ.diffC s ≤ inst.numDays ∧
      (σ.diffC s : Int) = (σ.maxC s : Int) - (σ.minC s : Int) ∧
      ∀ m ∈ eligibleMembers inst s,
        σ.minC s ≤ memberShiftCount inst σ m s ∧
        memberShiftCount inst σ m s ≤ σ.maxC s := by
  constructor
  · rw [phase1Objective, fairnessPenalties,
      flatMap_ite_singleton (List.range inst.shifts.length)
        (fun s => 1 < (eligibleMembers inst s).length) σ.diffC]
  · intro s hs hmany
    have hf := (phase1Sat_parts h).2.2.2.2.2
    rw [fairnessSat, List.all_eq_true] at hf
    have hone := hf s (List.mem_range.mpr hs)
    rw [fairnessSatOne, if_pos hmany] at hone
    simp only [Bool.and_eq_true, decide_eq_true_eq, List.all_eq_true] at hone
    refine ⟨hone.1.1.2, hone.1.2, hone.2, hone.1.1.1.2, ?_⟩
    intro m hm
    exact hone.1.1.1.1 m hm

/-- Claim C4 witness: the fairness-objective theorem applied to instW
and its satisfying assignment sigmaW. -/
theorem c4_fairness_objective_witness :
    phase1Sat instW sigmaW = true ∧
    phase1Objective instW sigmaW =
      (((List.range instW.shifts.length).filter fun s =>
        1 < (eligibleMembers instW s).length).map sigmaW.diffC).sum :=
  ⟨by decide, (c4_fairness_objective instW sigmaW (by decide)).1⟩

/-! ## Theorems for the eager-validation claim -/

/-- If some ShiftConstraint record in the list has a dangling template
reference, the pairwise loop body raises ValueError. -/
lemma pairwiseBuildOne_error (inst : Snapshot) (acc : Nat)
    (cs : List SC)
    (h : ∃ c ∈ cs, findKeyInDict c.shiftId inst.shifts = none ∨
      findKeyInDict c.linkedShiftId inst.shifts = none) :
    (pairwiseBuildOne inst acc cs).2 = some "No such object" := by
  induction cs generalizing acc with
  | nil => simp at h
  | cons c rest ih =>
      rcases h with ⟨c', hc', hbad⟩
      rcases List.mem_cons.mp hc' with rfl | hrest
      · cases hfk : findKeyInDict c'.shiftId inst.shifts with
        | none => simp [pairwiseBuildOne, hfk]
        | some fk =>
            cases htk : findKeyInDict c'.linkedShiftId inst.shifts with
            | none => simp [pairwiseBuildOne, hfk, htk]
            | some tk =>
                rw [hfk] at hbad
                rw [htk] at hbad
                rcases hbad with hbad | hbad <;> cases hbad
      · cases hfk : findKeyInDict c.shiftId inst.shifts with
        | none => simp [pairwiseBuildOne, hfk]
        | some fk =>
            cases htk : findKeyInDict c.linkedShiftId inst.shifts with
            | none => simp [pairwiseBuildOne, hfk, htk]
            | some tk =>
                rw [pairwiseBuildOne, hfk, htk]
                exact ih _ ⟨c', hrest, hbad⟩

/-- The member loop propagates the error of the first pass. -/
lemma pairwiseBuildLoop_error (inst : Snapshot) (k acc : Nat)
    (h : ∃ c ∈ inst.shiftConstraints,
      findKeyInDict c.shiftId inst.shifts = none ∨
      findKeyInDict c.linkedShiftId inst.shifts = none) :
    (pairwiseBuildLoop inst (Nat.succ k) acc).2 = some "No such object" := by
  rw [pairwiseBuildLoop]
  have herr := pairwiseBuildOne_error inst acc inst.shiftConstraints h
  cases hres : pairwiseBuildOne inst acc inst.shiftConstraints with
  | mk acc2 e =>
      rw [hres] at herr
      cases e with
      | none => cases herr
      | some e' =>
          cases herr
          rfl

/-- Claim C6, counterexample: on instC6, whose only ShiftConstraint
references a template id absent from the catalog, the call does raise,
but the claim that no model variables or constraints exist at that point
fails: all assignment variables and the coverage constraints were
already created. -/
theorem c6_counterexample :
    ¬ ((buildModelTrace instC6).2.isSome = true →
      (buildModelTrace instC6).1.boolVarCount = 0 ∧
      (buildModelTrace instC6).1.intVarCount = 0 ∧
      (buildModelTrace instC6).1.capConstraintCount = 0 ∧
      (buildModelTrace instC6).1.coverageConstraintCount = 0) := by
  decide

/-- Claim C6, amended: a dangling template reference in a pairwise
constraint makes the scheduling call fail with the ValueError of
find_key_in_dict, but the failure happens during model construction, at
the pairwise stage: by then every assignment and working-hours variable,
every two-day cap constraint and every coverage constraint has already
been created, while the later eligibility and fairness stages are never
reached. -/
theorem c6_amended (inst : Snapshot) (hm : inst.members.length ≠ 0)
    (h : ∃ c ∈ inst.shiftConstraints,
      findKeyInDict c.shiftId inst.shifts = none ∨
      findKeyInDict c.linkedShiftId inst.shifts = none) :
    (buildModelTrace inst).2 = some "No such object" ∧
    (buildModelTrace inst).1.boolVarCount =
      inst.members.length * inst.numDays * inst.shifts.length ∧
    (buildModelTrace inst).1.intVarCount =
      inst.members.length * inst.numDays * inst.shifts.length ∧
    (buildModelTrace inst).1.capConstraintCount =
      (inst.numDays - 1) * inst.members.length ∧
    (buildModelTrace inst).1.coverageConstraintCount =
      inst.numDays * inst.shifts.length ∧
    (buildModelTrace inst).1.eligConstraintCount = 0 ∧
    (buildModelTrace inst).1.fairnessDiffCount = 0 := by
  obtain ⟨k, hk⟩ : ∃ k, inst.members.length = Nat.succ k :=
    ⟨inst.members.length - 1, by omega⟩
  have herr := pairwiseBuildLoop_error inst k 0 h
  rw [buildModelTrace, hk]
  cases hres : pairwiseBuildLoop inst (Nat.succ k) 0 with
  | mk pc e =>
      rw [hres] at herr
      cases e with
      | none => cases herr
      | some e' =>
          cases herr
          exact ⟨rfl, rfl, rfl, rfl, rfl, rfl, rfl⟩

/-- Claim C6 witness: the amended statement applied to instC6. -/
theorem c6_amended_witness :
    instC6.members.length ≠ 0 ∧
    (buildModelTrace instC6).2 = some "No such object" ∧
    (buildModelTrace instC6).1.boolVarCount =
      instC6.members.length * instC6.numDays * instC6.shifts.length := by
  refine ⟨by decide, ?_, ?_⟩
  · exact (c6_amended instC6 (by decide)
      ⟨⟨5, 0, 1⟩, by decide, Or.inl (by decide)⟩).1
  · exact (c6_amended instC6 (by decide)
      ⟨⟨5, 0, 1⟩, by decide, Or.inl (by decide)⟩).2.1

end HealthyShifts
